import Mathlib

/-!
Verification of the cart/checkout logic of the aradagri storefront.

The embedded code lives in `src/src/pages/CartPage.tsx` and
`src/src/pages/CheckoutPage.tsx`.  Monetary amounts and quantities in the
repository are integer-valued JavaScript numbers; integer arithmetic on
doubles is exact below 2^53, so sums and products of prices and quantities
are modelled on Nat.  The one place the code leaves integer arithmetic is
`tax = Math.round(subtotal * 0.09)`: the literal `0.09` and the product are
IEEE-754 binary64 values.  The doubles arising here are nonnegative exact
rationals, so we model them as unreduced fractions of naturals (`Frac`):
`roundToDouble` rounds a positive fraction to the nearest representable
53-bit-significand value (round to nearest, ties to even), `jsMul` is the
double multiplication, and `jsMathRound` is the ECMA `Math.round` (nearest
integer, ties toward positive infinity), which the ECMA specification
defines on the exact mathematical value of its argument.
-/

namespace AradAgri

/-- A nonnegative rational as an unreduced fraction `num / den`. -/
structure Frac where
  num : ℕ
  den : ℕ
deriving DecidableEq, Repr

/-- The rational value denoted by a fraction. -/
def Frac.val (x : Frac) : ℚ := (x.num : ℚ) / (x.den : ℚ)

/-- Round `a / b` to the nearest natural, ties to even
(the IEEE-754 default rounding of a significand). -/
def roundHalfEvenDiv (a b : ℕ) : ℕ :=
  let q := a / b
  let r := a % b
  if 2 * r < b then q
  else if b < 2 * r then q + 1
  else if q % 2 = 0 then q else q + 1

/-- Fueled floor base-2 logarithm; structural recursion on the fuel keeps
it kernel-reducible. -/
def log2Fuel : ℕ → ℕ → ℕ
  | 0, _ => 0
  | fuel + 1, n => if n ≤ 1 then 0 else log2Fuel fuel (n / 2) + 1

/-- Floor base-2 logarithm of a natural (0 for inputs below 2). -/
def natLog2 (n : ℕ) : ℕ := log2Fuel n n

/-- Ceiling base-2 logarithm: the least k with n ≤ 2 ^ k. -/
def natClog2 (n : ℕ) : ℕ :=
  if n ≤ 1 then 0 else natLog2 (n - 1) + 1

/-- Floor base-2 logarithm of a positive fraction (the binary exponent of
its IEEE-754 representation). -/
def Frac.intLog2 (x : Frac) : ℤ :=
  if x.den ≤ x.num then (natLog2 (x.num / x.den) : ℤ)
  else -(natClog2 ((x.den + x.num - 1) / x.num) : ℤ)

/-- Round a nonnegative fraction to the nearest IEEE-754 binary64 value
(53-bit significand, round to nearest, ties to even), viewed as an exact
fraction.  Values of this repository stay far inside the normal range, so
overflow and subnormals are not modelled. -/
def roundToDouble (x : Frac) : Frac :=
  if x.num = 0 ∨ x.den = 0 then ⟨0, 1⟩
  else
    let e := x.intLog2
    if e ≤ 52 then
      let s := (52 - e).toNat
      ⟨roundHalfEvenDiv (x.num * 2 ^ s) x.den, 2 ^ s⟩
    else
      let s := (e - 52).toNat
      ⟨roundHalfEvenDiv x.num (x.den * 2 ^ s) * 2 ^ s, 1⟩

/-- The double nearest to the source literal `0.09`. -/
def double009 : Frac := roundToDouble ⟨9, 100⟩

/-- IEEE-754 binary64 multiplication on exact fraction representatives. -/
def jsMul (x y : Frac) : Frac := roundToDouble ⟨x.num * y.num, x.den * y.den⟩

/-- ECMA `Math.round` on a nonnegative double: the closest integer, ties
toward positive infinity, i.e. the floor of `x + 1/2`; the ECMA
specification applies it to the exact mathematical value of the double. -/
def jsMathRound (x : Frac) : ℕ := (2 * x.num + x.den) / (2 * x.den)

/-- The `CartItem` view model of `CartPage.tsx`. -/
structure CartItem where
  id : String
  name : String
  price : ℕ
  quantity : ℕ
  image : String
  category : String
  productId : String
deriving DecidableEq, Repr

/-- The fixed fallback cart `mockCartItems` of `CartPage.tsx`. -/
def mockCartItems : List CartItem :=
  [{ id := "1", productId := "1", name := "کود ارگانیک", price := 250000,
     quantity := 2, image := "/images/fertilizer.jpg", category := "کود" },
   { id := "2", productId := "2", name := "بذر گندم با کیفیت بالا",
     price := 150000, quantity := 1, image := "/images/seeds.jpg",
     category := "بذر" }]

/-- `subtotal = cartItems.reduce((sum, item) => sum + item.price * item.quantity, 0)`. -/
def subtotalOf (items : List CartItem) : ℕ :=
  items.foldl (fun sum item => sum + item.price * item.quantity) 0

/-- `shipping = subtotal > 1000000 ? 0 : 50000`. -/
def shippingOf (items : List CartItem) : ℕ :=
  if 1000000 < subtotalOf items then 0 else 50000

/-- `tax = Math.round(subtotal * 0.09)` with the double semantics above. -/
def taxOf (items : List CartItem) : ℕ :=
  jsMathRound (jsMul (roundToDouble ⟨subtotalOf items, 1⟩) double009)

/-- `total = subtotal + shipping + tax`. -/
def totalOf (items : List CartItem) : ℕ :=
  subtotalOf items + shippingOf items + taxOf items

example : double009 = ⟨6485183463413514, 2 ^ 56⟩ := by decide
example : taxOf mockCartItems = 58500 := by decide
example : totalOf mockCartItems = 758500 := by decide
example : taxOf [] = 0 := by decide
example : taxOf [{ id := "x", productId := "x", name := "x", price := 100000,
                   quantity := 1, image := "", category := "" }] = 9000 := by
  decide

/-! ### Cart client state and operations (`CartPage.tsx`) -/

/-- JavaScript `a || b` on an optional string: the fallback replaces both
a missing value and the empty string (which is falsy). -/
def jsOrString (v : Option String) (fallback : String) : String :=
  match v with
  | some s => if s = "" then fallback else s
  | none => fallback

/-- The nested product of an API cart item
(`item.product` in `CartPage.tsx`). -/
structure ApiProduct where
  id : String
  title : String
  price : ℕ
  images : List String
  category : Option String
deriving DecidableEq, Repr

/-- An item of the server cart (`ApiCartItem` in `CartPage.tsx`). -/
structure ApiCartItem where
  id : String
  quantity : ℕ
  product : ApiProduct
deriving DecidableEq, Repr

/-- The server cart (`ApiCart` in `CartPage.tsx`). -/
structure ApiCart where
  id : String
  items : List ApiCartItem
deriving DecidableEq, Repr

/-- The mapping from the server item shape to the flat `CartItem` view,
from the `apiCart.items.map` call in `fetchCart`. -/
def mapApiItem (item : ApiCartItem) : CartItem :=
  { id := item.id
    productId := item.product.id
    name := item.product.title
    price := item.product.price
    quantity := item.quantity
    image := jsOrString item.product.images.head? "/images/placeholder.jpg"
    category := jsOrString item.product.category "دسته‌بندی نشده" }

/-- The component state of `CartPage`: the `cartItems`, `loading`, `error`
and `cartId` `useState` cells. -/
structure CartState where
  cartItems : List CartItem
  loading : Bool
  error : Option String
  cartId : Option String
deriving DecidableEq, Repr

/-- The state of `CartPage` when it mounts. -/
def initialCartState : CartState :=
  { cartItems := [], loading := true, error := none, cartId := none }

/-- Outcome of the `GET /cart` request observed by `fetchCart`: the fetch
promise rejects, or the response status is not ok, or a JSON envelope
`{success, data}` arrives. -/
inductive CartFetchResult where
  | networkError
  | httpNotOk
  | envelope (success : Bool) (data : Option ApiCart)
deriving DecidableEq, Repr

/-- The error string set by the catch branch of `fetchCart`. -/
def fetchErrorMsg : String := "خطا در بارگذاری سبد خرید"

/-- `fetchCart` of `CartPage.tsx` as a state transformer over the observed
request outcome.  `setError(null)` runs first; a thrown error (network
failure or a non-ok status) is caught, records `fetchErrorMsg` and falls
back to `mockCartItems`; a non-success envelope falls back to
`mockCartItems` without recording an error; `setLoading(false)` runs in
the `finally` block.  The function is total: no exception escapes. -/
def fetchCart (r : CartFetchResult) (s : CartState) : CartState :=
  match r with
  | .envelope true (some cart) =>
      { s with loading := false, error := none,
               cartId := some cart.id,
               cartItems := cart.items.map mapApiItem }
  | .envelope _ _ =>
      { s with loading := false, error := none, cartItems := mockCartItems }
  | .networkError =>
      { s with loading := false, error := some fetchErrorMsg,
               cartItems := mockCartItems }
  | .httpNotOk =>
      { s with loading := false, error := some fetchErrorMsg,
               cartItems := mockCartItems }

/-- True on the outcomes the specification calls failures: everything but
a success envelope carrying cart data. -/
def isFetchFailure (r : CartFetchResult) : Bool :=
  match r with
  | .envelope true (some _) => false
  | _ => true

/-- The error string set by the catch branch of `removeItem`. -/
def removeErrorMsg : String := "خطا در حذف محصول"

/-- The error string set by the catch branch of `updateQuantity`. -/
def updateErrorMsg : String := "خطا در به‌روزرسانی تعداد"

/-- `removeItem` of `CartPage.tsx`: issues `DELETE /cart/items/:itemId`;
`requestOk` tells whether that request succeeded (fetch resolved with an
ok status).  Local state filters the item out on both branches; the catch
branch additionally records `removeErrorMsg`. -/
def removeItem (itemId : String) (requestOk : Bool) (s : CartState) :
    CartState :=
  let remaining := s.cartItems.filter (fun item => item.id ≠ itemId)
  if requestOk then { s with cartItems := remaining }
  else { s with error := some removeErrorMsg, cartItems := remaining }

/-- The local-state update of `updateQuantity`: set the quantity of the
item whose id matches, leaving every other item as it is.  The new
quantity arrives as a JavaScript number, modelled as an integer truncated
to Nat on the positive path. -/
def applyQuantity (itemId : String) (newQuantity : ℤ)
    (items : List CartItem) : List CartItem :=
  items.map (fun item =>
    if item.id = itemId then { item with quantity := newQuantity.toNat }
    else item)

/-- `updateQuantity` of `CartPage.tsx`: delegates to `removeItem` when
`newQuantity <= 0`; otherwise issues `PUT /cart/items/:itemId` and applies
the new quantity to local state on both the success and the catch branch,
the catch branch additionally recording `updateErrorMsg`. -/
def updateQuantity (itemId : String) (newQuantity : ℤ) (requestOk : Bool)
    (s : CartState) : CartState :=
  if newQuantity ≤ 0 then removeItem itemId requestOk s
  else
    let updated := applyQuantity itemId newQuantity s.cartItems
    if requestOk then { s with cartItems := updated }
    else { s with error := some updateErrorMsg, cartItems := updated }

/-! ### Checkout orchestration (`CheckoutPage.tsx`) -/

/-- A saved delivery address (`Address` in `CheckoutPage.tsx`). -/
structure Address where
  id : String
  title : String
  fullName : String
  street : String
  city : String
  province : String
  postalCode : String
  phone : String
  isDefault : Bool
deriving DecidableEq, Repr

/-- The part of the `CheckoutPage` component state that `handlePlaceOrder`
reads and writes. -/
structure CheckoutState where
  cartId : Option String
  addresses : List Address
  selectedAddressId : String
  error : Option String
  submitting : Bool
deriving DecidableEq, Repr

/-- Outcome of the order request observed by `handlePlaceOrder`: the fetch
promise rejects, or the response status is not ok, or an envelope
`{success, data:{id}, message?}` arrives. -/
inductive OrderResult where
  | networkError
  | httpNotOk
  | envelope (success : Bool) (orderId : String) (message : Option String)
deriving DecidableEq, Repr

/-- Everything `handlePlaceOrder` does: the final component state, the
request it sent (if any: URL and `{cartId}` body), the navigation it
performed, whether the order id travelled with the navigation, and
whether the persisted guest token was removed. -/
structure PlaceOrderEffects where
  state : CheckoutState
  requestUrl : Option String
  requestBodyCartId : Option String
  navTarget : Option String
  navOrderId : Option String
  guestTokenRemoved : Bool
deriving DecidableEq, Repr

/-- The URL string the order request is sent to.  The source writes
`fetch("$\x7bAPI_BASE_URL\x7d/orders", ...)` with plain double quotes
instead of template-literal backticks, so nothing is interpolated: the
request goes to this literal 21-character string, not to the configured
API base. -/
def ordersRequestUrl : String := "$\x7bAPI_BASE_URL\x7d/orders"

/-- The prefix of `ordersRequestUrl` before `/orders`: the dollar sign,
an opening brace, the identifier and the closing brace, uninterpolated. -/
def uninterpolatedBase : String := "$\x7bAPI_BASE_URL\x7d"

/-- Error shown when `cartId` is absent. -/
def noCartMsg : String := "سبد خرید یافت نشد"

/-- Error shown when addresses exist and none is selected. -/
def noAddressMsg : String := "لطفا آدرس تحویل را انتخاب کنید"

/-- Error shown when no bearer token is present at submit time. -/
def loginMsg : String := "لطفا ابتدا وارد حساب کاربری شوید"

/-- Fallback error for a non-success envelope without a message. -/
def orderFailMsg : String := "خطا در ثبت سفارش"

/-- Error set by the catch branch of `handlePlaceOrder`. -/
def orderCatchMsg : String := "خطا در ثبت سفارش. لطفا دوباره تلاش کنید."

/-- `handlePlaceOrder` of `CheckoutPage.tsx` as a function of the bearer
token in local storage, the observed request outcome and the component
state.  Guard order follows the source: missing `cartId` first, then the
missing-address check `!selectedAddressId && addresses.length > 0`, then
the token check (which navigates to `/login`); only then is the POST
issued.  `setSubmitting(true)` is always undone by the `finally` block,
so the final `submitting` is `false` on every path that reaches it. -/
def handlePlaceOrder (token : Option String) (result : OrderResult)
    (s : CheckoutState) : PlaceOrderEffects :=
  match s.cartId with
  | none =>
      { state := { s with error := some noCartMsg }, requestUrl := none,
        requestBodyCartId := none, navTarget := none, navOrderId := none,
        guestTokenRemoved := false }
  | some cid =>
      if s.selectedAddressId = "" ∧ 0 < s.addresses.length then
        { state := { s with error := some noAddressMsg },
          requestUrl := none, requestBodyCartId := none,
          navTarget := none, navOrderId := none, guestTokenRemoved := false }
      else
        match token with
        | none =>
            { state := { s with submitting := false,
                                error := some loginMsg },
              requestUrl := none, requestBodyCartId := none,
              navTarget := some "/login", navOrderId := none,
              guestTokenRemoved := false }
        | some _ =>
            match result with
            | .networkError =>
                { state := { s with submitting := false,
                                    error := some orderCatchMsg },
                  requestUrl := some ordersRequestUrl,
                  requestBodyCartId := some cid, navTarget := none,
                  navOrderId := none, guestTokenRemoved := false }
            | .httpNotOk =>
                { state := { s with submitting := false,
                                    error := some orderCatchMsg },
                  requestUrl := some ordersRequestUrl,
                  requestBodyCartId := some cid, navTarget := none,
                  navOrderId := none, guestTokenRemoved := false }
            | .envelope true orderId _ =>
                { state := { s with submitting := false, error := none },
                  requestUrl := some ordersRequestUrl,
                  requestBodyCartId := some cid,
                  navTarget := some "/order-success",
                  navOrderId := some orderId, guestTokenRemoved := true }
            | .envelope false _ message =>
                { state := { s with submitting := false,
                                    error :=
                                      some (jsOrString message orderFailMsg) },
                  requestUrl := some ordersRequestUrl,
                  requestBodyCartId := some cid, navTarget := none,
                  navOrderId := none, guestTokenRemoved := false }

/-! ### Supporting lemmas -/

/-- The fueled log agrees with the library base-2 logarithm once the fuel
covers the input. -/
theorem log2Fuel_eq_log2 (fuel n : ℕ) (h : n ≤ fuel) :
    log2Fuel fuel n = Nat.log2 n := by
  induction fuel generalizing n with
  | zero =>
      interval_cases n
      simp [log2Fuel, Nat.log2]
  | succ fuel ih =>
      by_cases h1 : n ≤ 1
      · rw [Nat.log2]
        interval_cases n <;> simp [log2Fuel]
      · have h2 : 2 ≤ n := by omega
        have hdiv : n / 2 ≤ fuel := by
          have := Nat.div_lt_self (by omega : 0 < n) (by omega : 1 < 2)
          omega
        rw [Nat.log2]
        simp only [log2Fuel, h1, if_false, if_neg, ih _ hdiv]
        simp [h2]

/-- The model logarithm is the library base-2 logarithm. -/
theorem natLog2_eq_log2 (n : ℕ) : natLog2 n = Nat.log2 n :=
  log2Fuel_eq_log2 n n le_rfl

/-- Folding the running subtotal sum from any seed adds the mapped sum. -/
theorem subtotal_foldl_eq_sum (items : List CartItem) (n : ℕ) :
    items.foldl (fun sum item => sum + item.price * item.quantity) n =
      n + (items.map (fun item => item.price * item.quantity)).sum := by
  induction items generalizing n with
  | nil => simp
  | cons head tail ih => simp [ih, Nat.add_assoc]

/-- Appending the same string on the right is injective. -/
theorem string_append_right_cancel (a b c : String)
    (h : a ++ c = b ++ c) : a = b := by
  cases a with | mk as =>
  cases b with | mk bs =>
  cases c with | mk cs =>
  have h2 : as ++ cs = bs ++ cs := congrArg String.data h
  have hlen : as.length = bs.length := by
    have := congrArg List.length h2
    simp at this
    omega
  exact congrArg String.mk ((List.append_inj h2 hlen).1)

/-- A one-item cart sitting exactly on the free-shipping threshold. -/
def boundaryCartAt : List CartItem :=
  [{ id := "b1", productId := "b1", name := "b1", price := 1000000,
     quantity := 1, image := "", category := "" }]

/-- A one-item cart one unit above the free-shipping threshold. -/
def boundaryCartAbove : List CartItem :=
  [{ id := "b2", productId := "b2", name := "b2", price := 1000001,
     quantity := 1, image := "", category := "" }]

/-- The single-item cart realizing the tax example of the specification. -/
def taxScenarioItems : List CartItem :=
  [{ id := "t1", productId := "t1", name := "t1", price := 100000,
     quantity := 1, image := "", category := "" }]

/-- A concrete cart page state used to instantiate universal theorems. -/
def sampleCartState : CartState :=
  { cartItems := mockCartItems, loading := false, error := none,
    cartId := some "cart-1" }

/-! ### Claims -/

/-- Claim C1: for every list of cart items the pricing calculator returns
subtotal equal to the sum over items of price times quantity and total
equal to subtotal plus shipping plus tax; on the two-item list with
prices 250000 (quantity 2) and 150000 (quantity 1) it returns
subtotal 650000, shipping 50000, tax 58500 and total 758500. -/
theorem claim_C1 :
    (∀ items : List CartItem,
      subtotalOf items =
        (items.map (fun item => item.price * item.quantity)).sum ∧
      totalOf items = subtotalOf items + shippingOf items + taxOf items) ∧
    subtotalOf mockCartItems = 650000 ∧
    shippingOf mockCartItems = 50000 ∧
    taxOf mockCartItems = 58500 ∧
    totalOf mockCartItems = 758500 := by
  refine ⟨fun items => ⟨?_, rfl⟩, by decide, by decide, by decide, by decide⟩
  simpa using subtotal_foldl_eq_sum items 0

/-- Claim C2: the shipping fee is 0 exactly when the subtotal strictly
exceeds 1000000 and is 50000 otherwise; a subtotal of exactly 1000000
still pays 50000 and a subtotal of 1000001 ships free. -/
theorem claim_C2 :
    (∀ items : List CartItem,
      (shippingOf items = 0 ↔ 1000000 < subtotalOf items) ∧
      (¬ 1000000 < subtotalOf items → shippingOf items = 50000)) ∧
    subtotalOf boundaryCartAt = 1000000 ∧
    shippingOf boundaryCartAt = 50000 ∧
    subtotalOf boundaryCartAbove = 1000001 ∧
    shippingOf boundaryCartAbove = 0 := by
  refine ⟨fun items => ⟨?_, ?_⟩, by decide, by decide, by decide, by decide⟩
  · unfold shippingOf
    split <;> simp_all
  · intro h
    simp [shippingOf, h]

/-- Claim C3 as stated is false: the empty cart has subtotal 0, so the
shipping branch `subtotal > 1000000 ? 0 : 50000` charges the flat fee and
the total is 50000, not 0. -/
theorem claim_C3_counterexample :
    ¬ (subtotalOf [] = 0 ∧ shippingOf [] = 0 ∧ taxOf [] = 0 ∧
       totalOf [] = 0) := by decide

/-- Claim C3 amended: for the empty item list the pricing calculator
yields subtotal 0, tax 0, shipping 50000 and total 50000. -/
theorem claim_C3 :
    subtotalOf [] = 0 ∧ shippingOf [] = 50000 ∧ taxOf [] = 0 ∧
    totalOf [] = 50000 := by decide

/-- Claim C4: for every item list the tax is the ECMA rounding of the
IEEE-754 double product of the subtotal and the double literal 0.09; a
subtotal of 100000 yields tax 9000. -/
theorem claim_C4 :
    (∀ items : List CartItem,
      taxOf items =
        jsMathRound (jsMul (roundToDouble ⟨subtotalOf items, 1⟩)
          double009)) ∧
    subtotalOf taxScenarioItems = 100000 ∧
    taxOf taxScenarioItems = 9000 :=
  ⟨fun _ => rfl, by decide, by decide⟩

/-- Claim C5: for every cart state and item id, updating to a quantity of
at most 0 produces exactly the state produced by removing that item. -/
theorem claim_C5 (s : CartState) (itemId : String) (newQuantity : ℤ)
    (requestOk : Bool) (h : newQuantity ≤ 0) :
    updateQuantity itemId newQuantity requestOk s =
      removeItem itemId requestOk s := by
  simp [updateQuantity, h]

/-- Witness for claim C5 at quantity 0 on the sample state. -/
theorem claim_C5_witness :
    updateQuantity "1" 0 true sampleCartState =
      removeItem "1" true sampleCartState :=
  claim_C5 sampleCartState "1" 0 true (by decide)

/-- Claim C6 as stated is false: a response whose envelope is not a
success is a fetch failure, and the code falls back to the mock cart on
it, but the error cell stays `none` — only the thrown branches (network
error, non-ok status) record an error string. -/
theorem claim_C6_counterexample :
    isFetchFailure (CartFetchResult.envelope false none) = true ∧
    (fetchCart (CartFetchResult.envelope false none)
        initialCartState).cartItems = mockCartItems ∧
    (fetchCart (CartFetchResult.envelope false none)
        initialCartState).error = none := by decide

/-- Claim C6 amended: on every failure of `fetchCart` the local cart
state is set to the fixed mock cart (never empty), and a user-visible
error string is recorded exactly on the network-error and non-ok-status
failures, not on a non-success envelope; no exception propagates (the
transformer is total). -/
theorem claim_C6 (s : CartState) (r : CartFetchResult)
    (h : isFetchFailure r = true) :
    (fetchCart r s).cartItems = mockCartItems ∧
    ((fetchCart r s).error ≠ none ↔
      r = CartFetchResult.networkError ∨ r = CartFetchResult.httpNotOk) := by
  cases r with
  | networkError => simp [fetchCart, fetchErrorMsg]
  | httpNotOk => simp [fetchCart, fetchErrorMsg]
  | envelope success data =>
      cases success with
      | false => cases data <;> simp [fetchCart]
      | true =>
          cases data with
          | none => simp [fetchCart]
          | some cart => simp [isFetchFailure] at h

/-- Witness for claim C6 on a network error from the mount state. -/
theorem claim_C6_witness :
    (fetchCart CartFetchResult.networkError initialCartState).cartItems =
      mockCartItems :=
  (claim_C6 initialCartState CartFetchResult.networkError (by decide)).1

/-- Claim C7: with a positive new quantity, `updateQuantity` applies the
quantity change to local state whether the request succeeded or not, and
records its error string on failure; `removeItem` filters the item out of
local state whether the request succeeded or not, and records its error
string on failure. -/
theorem claim_C7 (s : CartState) (itemId : String) (newQuantity : ℤ)
    (requestOk : Bool) (h : 0 < newQuantity) :
    (updateQuantity itemId newQuantity requestOk s).cartItems =
      applyQuantity itemId newQuantity s.cartItems ∧
    (updateQuantity itemId newQuantity false s).error =
      some updateErrorMsg ∧
    (removeItem itemId requestOk s).cartItems =
      s.cartItems.filter (fun item => item.id ≠ itemId) ∧
    (removeItem itemId false s).error = some removeErrorMsg := by
  have h' : ¬ newQuantity ≤ 0 := not_le.mpr h
  refine ⟨?_, ?_, ?_, ?_⟩
  · cases requestOk <;> simp [updateQuantity, h']
  · simp [updateQuantity, h']
  · cases requestOk <;> simp [removeItem]
  · simp [removeItem]

/-- Witness for claim C7 with quantity 5 on the sample state. -/
theorem claim_C7_witness :
    (updateQuantity "1" 5 true sampleCartState).cartItems =
      applyQuantity "1" 5 sampleCartState.cartItems :=
  (claim_C7 sampleCartState "1" 5 true (by decide)).1

/-- Claim C8: `placeOrder` with no cart identifier, or with saved
addresses present and none selected, records an error and sends no
request; with the preconditions satisfied but no bearer token it sends no
request, records an error and navigates to the login flow. -/
theorem claim_C8 (s : CheckoutState) (token : Option String)
    (result : OrderResult) :
    (s.cartId = none →
      (handlePlaceOrder token result s).state.error = some noCartMsg ∧
      (handlePlaceOrder token result s).requestUrl = none) ∧
    (s.cartId ≠ none → s.selectedAddressId = "" →
      0 < s.addresses.length →
      (handlePlaceOrder token result s).state.error = some noAddressMsg ∧
      (handlePlaceOrder token result s).requestUrl = none) ∧
    (s.cartId ≠ none →
      ¬ (s.selectedAddressId = "" ∧ 0 < s.addresses.length) →
      token = none →
      (handlePlaceOrder token result s).requestUrl = none ∧
      (handlePlaceOrder token result s).navTarget = some "/login" ∧
      (handlePlaceOrder token result s).state.error = some loginMsg) := by
  refine ⟨?_, ?_, ?_⟩
  · intro hnone
    simp [handlePlaceOrder, hnone]
  · intro hsome hsel hlen
    obtain ⟨cid, hcid⟩ := Option.ne_none_iff_exists.mp hsome
    simp [handlePlaceOrder, ← hcid, hsel, hlen]
  · intro hsome hguard htok
    obtain ⟨cid, hcid⟩ := Option.ne_none_iff_exists.mp hsome
    subst htok
    simp [handlePlaceOrder, ← hcid, hguard]

/-- A saved address used to instantiate the checkout theorems. -/
def sampleAddress : Address :=
  { id := "addr-1", title := "خانه", fullName := "کاربر نمونه",
    street := "خیابان اول", city := "تهران", province := "تهران",
    postalCode := "1111111111", phone := "09120000000", isDefault := true }

/-- A checkout state with a cart, one saved address and none selected. -/
def noSelectionCheckoutState : CheckoutState :=
  { cartId := some "cart-1", addresses := [sampleAddress],
    selectedAddressId := "", error := none, submitting := false }

/-- Witness for claim C8: with an address list present and no selection,
the error is recorded and no request goes out. -/
theorem claim_C8_witness :
    (handlePlaceOrder (some "tok") OrderResult.networkError
        noSelectionCheckoutState).state.error = some noAddressMsg ∧
    (handlePlaceOrder (some "tok") OrderResult.networkError
        noSelectionCheckoutState).requestUrl = none :=
  (claim_C8 noSelectionCheckoutState (some "tok")
      OrderResult.networkError).2.1 (by decide) rfl (by decide)

/-- A checkout state satisfying every `placeOrder` precondition. -/
def readyCheckoutState : CheckoutState :=
  { cartId := some "cart-1", addresses := [sampleAddress],
    selectedAddressId := "addr-1", error := none, submitting := false }

/-- Claim C9 is right about the intent and the code is wrong: the source
writes the order URL in plain double quotes, so the template placeholder
is never interpolated and the POST goes to the fixed literal string, not
to the `/orders` endpoint of the configured API base.  The success-path
effects the claim describes (body `\x7bcartId\x7d`, guest token removal,
navigation with the returned order id) are otherwise as stated. -/
theorem claim_C9_bug :
    (handlePlaceOrder (some "tok")
        (OrderResult.envelope true "order-9" none)
        readyCheckoutState).requestUrl = some ordersRequestUrl ∧
    (handlePlaceOrder (some "tok")
        (OrderResult.envelope true "order-9" none)
        readyCheckoutState).requestBodyCartId = some "cart-1" ∧
    (handlePlaceOrder (some "tok")
        (OrderResult.envelope true "order-9" none)
        readyCheckoutState).guestTokenRemoved = true ∧
    (handlePlaceOrder (some "tok")
        (OrderResult.envelope true "order-9" none)
        readyCheckoutState).navTarget = some "/order-success" ∧
    (handlePlaceOrder (some "tok")
        (OrderResult.envelope true "order-9" none)
        readyCheckoutState).navOrderId = some "order-9" ∧
    ordersRequestUrl = uninterpolatedBase ++ "/orders" ∧
    ordersRequestUrl ≠ "http://localhost:5000/api" ++ "/orders" ∧
    (∀ base : String, base ≠ uninterpolatedBase →
      ordersRequestUrl ≠ base ++ "/orders") := by
  refine ⟨by decide, by decide, by decide, by decide, by decide,
    by decide, by decide, ?_⟩
  intro base hne heq
  apply hne
  have h2 : base ++ "/orders" = uninterpolatedBase ++ "/orders" := by
    rw [← heq]; decide
  exact string_append_right_cancel base uninterpolatedBase "/orders" h2

/-- Claim C10: with a positive new quantity, the local update of
`updateQuantity` preserves the length and order of the cart list, leaves
every item with a different id untouched, changes at most the quantity
field of the items whose id matches, and leaves the whole list unchanged
when no id matches. -/
theorem claim_C10 (s : CartState) (itemId : String) (newQuantity : ℤ)
    (requestOk : Bool) (h : 0 < newQuantity) :
    ((updateQuantity itemId newQuantity requestOk s).cartItems.length =
      s.cartItems.length) ∧
    (∀ i : ℕ, ∀ item : CartItem, s.cartItems[i]? = some item →
      (item.id ≠ itemId →
        (updateQuantity itemId newQuantity requestOk s).cartItems[i]? =
          some item) ∧
      (item.id = itemId →
        (updateQuantity itemId newQuantity requestOk s).cartItems[i]? =
          some { item with quantity := newQuantity.toNat })) ∧
    ((∀ item ∈ s.cartItems, item.id ≠ itemId) →
      (updateQuantity itemId newQuantity requestOk s).cartItems =
        s.cartItems) := by
  have h' : ¬ newQuantity ≤ 0 := not_le.mpr h
  have hcart : (updateQuantity itemId newQuantity requestOk s).cartItems =
      applyQuantity itemId newQuantity s.cartItems := by
    cases requestOk <;> simp [updateQuantity, h']
  rw [hcart]
  refine ⟨by simp [applyQuantity], ?_, ?_⟩
  · intro i item hi
    refine ⟨fun hne => ?_, fun heq => ?_⟩
    · rw [applyQuantity, List.getElem?_map, hi]
      simp [hne]
    · rw [applyQuantity, List.getElem?_map, hi]
      simp [heq]
  · intro hall
    have h1 : s.cartItems.map (fun item =>
        if item.id = itemId then { item with quantity := newQuantity.toNat }
        else item) = s.cartItems.map id := by
      apply List.map_congr_left
      intro a ha
      simp [hall a ha]
    simpa [applyQuantity] using h1

/-- Witness for claim C10: updating item 1 of the sample state to
quantity 7 keeps the list length. -/
theorem claim_C10_witness :
    (updateQuantity "1" 7 true sampleCartState).cartItems.length =
      sampleCartState.cartItems.length :=
  (claim_C10 sampleCartState "1" 7 true (by decide)).1

end AradAgri
